import Mathlib

/-!
Shallow embedding of the pdschema/pyschema validation engine.

Sources embedded:
- src/pyschema/columns.py  (Column, Column.to_pyarrow_type)
- src/pyschema/schema.py   (Schema and its checks, Schema.validate)
- src/pyschema/types.py    (get_pyarrow_type_from_series and the two type maps)
- src/pdschema/columns.py  (Column.set_name, Column.with_name)

Modelling conventions: pandas and pyarrow values in a column are embedded as
the inductive Val; a pandas Series is a list of (index label, value) pairs,
matching series.items(); a DataFrame is an association list from column name
to series.  Python exceptions are modelled with Except: an uncaught exception
is an .error, a caught one is turned into the value the handler produces.
pyarrow array construction (pa.array) is modelled per element: each value is
either convertible to the target storage type or not, and construction fails
on the first inconvertible value, which matches how the engine consumes it.
-/

/-- A Python value stored in a dataframe cell.  vFloat and vOther carry the
string produced by str(value), so findings can embed the value text. -/
inductive Val where
  | vNull
  | vInt (n : Int)
  | vFloat (r : String)
  | vStr (s : String)
  | vBool (b : Bool)
  | vOther (ty : String) (r : String)
deriving DecidableEq

/-- pd.isnull on a scalar value. -/
def Val.isNull : Val → Bool
  | .vNull => true
  | _ => false

/-- str(value), as used by the f-string interpolation in the finding texts. -/
def Val.pyStr : Val → String
  | .vNull => "None"
  | .vInt n => toString n
  | .vFloat r => r
  | .vStr s => s
  | .vBool true => "True"
  | .vBool false => "False"
  | .vOther _ r => r

namespace Pyschema

/-- A Python type object usable as a Column dtype (src/pyschema/types.py keys
of pyarrow__python, plus a catch-all for unmapped types). -/
inductive PyT where
  | int
  | float
  | str
  | bool
  | datetime
  | date
  | time
  | decimal
  | plist
  | pdict
  | ptuple
  | other (name : String)
deriving DecidableEq

/-- str(type object), as interpolated into the TypeError message of
Column.to_pyarrow_type. -/
def pyTypeStr : PyT → String
  | .int => "<class 'int'>"
  | .float => "<class 'float'>"
  | .str => "<class 'str'>"
  | .bool => "<class 'bool'>"
  | .datetime => "<class 'datetime.datetime'>"
  | .date => "<class 'datetime.date'>"
  | .time => "<class 'datetime.time'>"
  | .decimal => "<class 'decimal.Decimal'>"
  | .plist => "<class 'list'>"
  | .pdict => "<class 'dict'>"
  | .ptuple => "<class 'tuple'>"
  | .other n => "<class '" ++ n ++ "'>"

/-- The pyarrow storage types appearing in the repository's type maps. -/
inductive PAType where
  | int64
  | int32
  | int16
  | int8
  | uint64
  | uint32
  | uint16
  | uint8
  | float64
  | float32
  | string
  | bool_
  | timestampUs
  | date32
  | time64us
  | decimal128_38_18
  | listNull
  | mapStringNull
  | dictInt32String
  | intervalStruct
  | null
deriving DecidableEq

/-- str(pyarrow type), used inside modelled pyarrow error texts. -/
def paTypeStr : PAType → String
  | .int64 => "int64"
  | .int32 => "int32"
  | .int16 => "int16"
  | .int8 => "int8"
  | .uint64 => "uint64"
  | .uint32 => "uint32"
  | .uint16 => "uint16"
  | .uint8 => "uint8"
  | .float64 => "double"
  | .float32 => "float"
  | .string => "string"
  | .bool_ => "bool"
  | .timestampUs => "timestamp[us]"
  | .date32 => "date32[day]"
  | .time64us => "time64[us]"
  | .decimal128_38_18 => "decimal128(38, 18)"
  | .listNull => "list<item: null>"
  | .mapStringNull => "map<string, null>"
  | .dictInt32String => "dictionary<values=string, indices=int32, ordered=0>"
  | .intervalStruct => "struct<start: double, end: double>"
  | .null => "null"

/-- A semantic validator: a Python callable over one value that returns a
bool or raises (modelled as .error message). -/
def Validator := Val → Except String Bool

/-- src/pyschema/columns.py Column: name, dtype, nullable flag, validators. -/
structure Column where
  name : String
  dtype : PyT
  nullable : Bool := true
  validators : List Validator := []

/-- src/pyschema/columns.py Column.to_pyarrow_type: look the dtype up in the
four-entry type_map; a missing key raises TypeError (uncaught .error). -/
def Column.to_pyarrow_type (c : Column) : Except String PAType :=
  match c.dtype with
  | .int => .ok .int64
  | .float => .ok .float64
  | .str => .ok .string
  | .bool => .ok .bool_
  | d => .error ("Unsupported dtype: " ++ pyTypeStr d)

/-- A pandas Series as the engine consumes it: (index label, value) pairs in
row order, matching series.items(). -/
abbrev Series := List (Nat × Val)

/-- A pandas DataFrame as the engine consumes it: named series. -/
abbrev DataFrame := List (String × Series)

def dfColumns (df : DataFrame) : List String := df.map (·.1)

def dfLookup (df : DataFrame) (name : String) : Option Series :=
  (df.find? (fun p => p.1 == name)).map (·.2)

/-- df[col_name] once membership is known; defaults to [] when absent (the
engine only evaluates it after the presence check). -/
def dfGet (df : DataFrame) (name : String) : Series :=
  (dfLookup df name).getD []

/-- src/pyschema/schema.py Schema._check_missing_column. -/
def check_missing_column (name : String) (df : DataFrame) : Option String :=
  if (dfColumns df).contains name then none
  else some ("Missing column: " ++ name)

/-- src/pyschema/schema.py Schema._check_nullability. -/
def check_nullability (col : Column) (series : Series) : Option String :=
  if !col.nullable && series.any (fun p => p.2.isNull) then
    some ("Null values found in non-nullable column: " ++ col.name)
  else none

/-- The rows of a series whose value is not null, labels kept. -/
def nonNulls (series : Series) : Series :=
  series.filter (fun p => !p.2.isNull)

/-- series.dropna() as fed to pa.array: the non-null values. -/
def dropna (series : Series) : List Val :=
  (nonNulls series).map (·.2)

/-- Model of pyarrow scalar coercion: can this value be placed into the
target storage type?  (Only the storage types reachable from the four-entry
type_map matter to the engine.) -/
def elemOk : PAType → Val → Bool
  | .int64, .vInt _ => true
  | .int64, .vBool _ => true
  | .float64, .vInt _ => true
  | .float64, .vFloat _ => true
  | .float64, .vBool _ => true
  | .string, .vStr _ => true
  | .bool_, .vBool _ => true
  | _, _ => false

/-- Model of pa.array(values, type=t): fails with ArrowInvalid/ArrowTypeError
on the first value that cannot be converted. -/
def paArray : List Val → PAType → Except String Unit
  | [], _ => .ok ()
  | v :: rest, t =>
    if elemOk t v then paArray rest t
    else .error ("Could not convert " ++ v.pyStr ++ ": tried to convert to " ++ paTypeStr t)

/-- src/pyschema/schema.py Schema._check_type.  The except clause catches
only the pyarrow construction errors, turning them into a finding; the
TypeError from to_pyarrow_type is not caught and propagates (.error). -/
def check_type (col : Column) (series : Series) : Except String (Option String) :=
  match col.to_pyarrow_type with
  | .error e => .error e
  | .ok t =>
    match paArray (dropna series) t with
    | .error e => .ok (some ("Type mismatch in column '" ++ col.name ++ "': " ++ e))
    | .ok _ => .ok none

/-- The finding text for a validator returning False. -/
def failMsg (colName : String) (i : Nat) (v : Val) : String :=
  "Validation failed in '" ++ colName ++ "' at index " ++ toString i ++ ": " ++ v.pyStr

/-- The finding text for a validator raising. -/
def errMsg (colName : String) (i : Nat) (e : String) : String :=
  "Validator error in '" ++ colName ++ "' at index " ++ toString i ++ ": " ++ e

/-- The inner validator loop of Schema._check_validators for one non-null
value: a False return appends one finding and breaks; a raised exception
appends one finding and continues with the next validator. -/
def rowLoop (colName : String) (i : Nat) (v : Val) : List Validator → List String
  | [] => []
  | f :: rest =>
    match f v with
    | .ok true => rowLoop colName i v rest
    | .ok false => [failMsg colName i v]
    | .error e => errMsg colName i e :: rowLoop colName i v rest

/-- src/pyschema/schema.py Schema._check_validators: iterate series.items(),
skip null values, run the inner loop on the rest, concatenating findings. -/
def check_validators (col : Column) (series : Series) : List String :=
  series.flatMap (fun p => if p.2.isNull then [] else rowLoop col.name p.1 p.2 col.validators)

/-- src/pyschema/schema.py Schema: columns dict, insertion ordered. -/
structure Schema where
  columns : List (String × Column)

/-- One step of the dict comprehension \x7bcol.name: col for col in columns\x7d:
a repeated name overwrites in place, a new name appends. -/
def dictInsert (d : List (String × Column)) (c : Column) : List (String × Column) :=
  if d.any (fun p => p.1 == c.name) then
    d.map (fun p => if p.1 == c.name then (c.name, c) else p)
  else d ++ [(c.name, c)]

/-- Schema.__init__ from a list of columns. -/
def Schema.ofColumns (cols : List Column) : Schema :=
  ⟨cols.foldl dictInsert []⟩

/-- The two ways Schema.validate can raise: the uncaught TypeError from an
unmapped dtype (fatal), or the aggregated ValueError (composite). -/
inductive VErr where
  | fatal (msg : String)
  | composite (msg : String)
deriving DecidableEq

/-- The column loop of Schema.validate with its errors accumulator: a missing
column contributes its finding and skips the other checks; otherwise the
nullability finding, then the type finding (whose computation can raise the
fatal TypeError), then the validator findings are appended. -/
def validateGo (df : DataFrame) : List (String × Column) → List String → Except String (List String)
  | [], errs => .ok errs
  | (name, col) :: rest, errs =>
    match check_missing_column name df with
    | some m => validateGo df rest (errs ++ [m])
    | none =>
      let series := dfGet df name
      let errs1 := errs ++ (check_nullability col series).toList
      match check_type col series with
      | .error e => .error e
      | .ok t => validateGo df rest (errs1 ++ t.toList ++ check_validators col series)

/-- The column loop started with an empty accumulator. -/
def validateAux (df : DataFrame) (cols : List (String × Column)) : Except String (List String) :=
  validateGo df cols []

/-- src/pyschema/schema.py Schema.validate: run the loop; an empty findings
list returns True, a non-empty one raises the single aggregated ValueError. -/
def Schema.validate (s : Schema) (df : DataFrame) : Except VErr Bool :=
  match validateAux df s.columns with
  | .error e => .error (.fatal e)
  | .ok [] => .ok true
  | .ok errs => .error (.composite ("Schema validation failed:\n" ++ String.intercalate "\n" errs))

/-- The checks of one column of the loop body, packaged: the findings this
column contributes, or the fatal error it raises. -/
def colCheck (df : DataFrame) (p : String × Column) : Except String (List String) :=
  match check_missing_column p.1 df with
  | some m => .ok [m]
  | none =>
    let series := dfGet df p.1
    match check_type p.2 series with
    | .error e => .error e
    | .ok t => .ok ((check_nullability p.2 series).toList ++ t.toList ++ check_validators p.2 series)

/-- The findings one column contributes in the non-fatal case. -/
def colFindings (df : DataFrame) (p : String × Column) : List String :=
  ((colCheck df p).toOption).getD []

/-- A pandas dtype as tested by src/pyschema/types.py: the numpy object
dtype, other numpy dtypes (none of which are keys of pyarrow__pandas), and
the pandas extension dtypes that are keys of pyarrow__pandas. -/
inductive PdDtype where
  | obj
  | npOther (name : String)
  | extInt64
  | extInt32
  | extInt16
  | extInt8
  | extUInt64
  | extUInt32
  | extUInt16
  | extUInt8
  | extFloat64
  | extFloat32
  | extString
  | extBoolean
  | datetimeTZ
  | categorical
  | interval
  | period
  | sparse
deriving DecidableEq

/-- src/pyschema/types.py pyarrow__pandas, as the lookup the inference
performs: pandas extension dtype to pyarrow type; numpy dtypes (object
included) are not keys. -/
def pyarrow__pandas : PdDtype → Option PAType
  | .extInt64 => some .int64
  | .extInt32 => some .int32
  | .extInt16 => some .int16
  | .extInt8 => some .int8
  | .extUInt64 => some .uint64
  | .extUInt32 => some .uint32
  | .extUInt16 => some .uint16
  | .extUInt8 => some .uint8
  | .extFloat64 => some .float64
  | .extFloat32 => some .float32
  | .extString => some .string
  | .extBoolean => some .bool_
  | .datetimeTZ => some .timestampUs
  | .categorical => some .dictInt32String
  | .interval => some .intervalStruct
  | .period => some .int64
  | .sparse => some .null
  | .obj => none
  | .npOther _ => none

/-- src/pyschema/types.py pyarrow__python: Python runtime type to pyarrow
type. -/
def pyarrow__python : PyT → Option PAType
  | .int => some .int64
  | .float => some .float64
  | .str => some .string
  | .bool => some .bool_
  | .datetime => some .timestampUs
  | .date => some .date32
  | .time => some .time64us
  | .decimal => some .decimal128_38_18
  | .plist => some .listNull
  | .pdict => some .mapStringNull
  | .ptuple => some .listNull
  | .other _ => none

/-- type(value) for the embedded value universe. -/
def valPyType : Val → PyT
  | .vInt _ => .int
  | .vFloat _ => .float
  | .vStr _ => .str
  | .vBool _ => .bool
  | .vNull => .other "NoneType"
  | .vOther ty _ => .other ty

/-- A pandas Series as src/pyschema/types.py consumes it: a dtype plus the
stored values in row order. -/
structure PdSeries where
  dtype : PdDtype
  values : List Val

/-- s.empty -/
def PdSeries.isEmpty (s : PdSeries) : Bool := s.values.isEmpty

/-- s.dropna() -/
def PdSeries.dropnaVals (s : PdSeries) : List Val :=
  s.values.filter (fun v => !v.isNull)

/-- src/pyschema/types.py get_pyarrow_type_from_series.  The line
`sample = s.dropna().iloc[0] if not s.empty else None` guards iloc[0] with
the emptiness of the original series, not of the dropna result: a non-empty
series whose values are all null evaluates iloc[0] on an empty frame, which
raises IndexError (uncaught, modelled as .error). -/
def get_pyarrow_type_from_series (s : PdSeries) : Except String PAType :=
  match pyarrow__pandas s.dtype with
  | some t => .ok t
  | none =>
    if s.dtype == .obj then
      if !s.isEmpty then
        match s.dropnaVals.head? with
        | none => .error "IndexError: single positional indexer is out-of-bounds"
        | some sample =>
          match pyarrow__python (valPyType sample) with
          | some t => .ok t
          | none => .ok .null
      else .ok .null
    else .ok .null

/-- The world a validate call runs in: the schema object and the table.  The
engine only reads from it; threading it makes absence of mutation provable. -/
structure World where
  schema : Schema
  df : DataFrame

/-- Schema.validate as a state-threaded computation over the world it reads:
the source performs no assignment to the table or the schema, so the embedded
computation reads the world and leaves it untouched. -/
def validateM : StateM World (Except VErr Bool) := do
  let w ← get
  pure (w.schema.validate w.df)

end Pyschema

namespace Pdschema

/-- src/pdschema/columns.py Column: the name may stay unset until bound. -/
structure Column where
  name : Option String := none
  dtype : Pyschema.PyT := .str
  nullable : Bool := true
  validators : List Pyschema.Validator := []

/-- src/pdschema/columns.py Column.set_name: `self.name = name`.  A Python
method mutating self is embedded as returning the post-call state of self
together with the method's return value (None). -/
def Column.set_name (c : Column) (n : String) : Column × Unit :=
  ({ c with name := some n }, ())

/-- src/pdschema/columns.py Column.with_name: builds a fresh Column from the
new name and the fields of self (validators deep-copied, which is
value-equality here); self is left as it was.  First component: self after
the call; second: the returned new Column. -/
def Column.with_name (c : Column) (n : String) : Column × Column :=
  (c, { name := some n, dtype := c.dtype, nullable := c.nullable, validators := c.validators })

end Pdschema

namespace Pyschema

/-! Concrete schemas, tables and validators used to instantiate the theorems
below on closed inputs. -/

/-- A validator that always raises. -/
def vRaise : Validator := fun _ => .error "boom"

/-- A validator that always returns False. -/
def vFalse : Validator := fun _ => .ok false

/-- A validator that always returns True. -/
def vTrue : Validator := fun _ => .ok true

/-- A validator that raises on the value 1 and returns False elsewhere. -/
def vMixed : Validator := fun v =>
  match v with
  | .vInt 1 => .error "boom"
  | _ => .ok false

def colC2 : Column := ⟨"c", .int, true, [vRaise, vFalse]⟩

def colC6 : Column := ⟨"c", .int, true, [vMixed]⟩

def dfC6 : DataFrame := [("c", [(0, .vInt 1), (1, .vInt 2)])]

def schemaC6 : Schema := ⟨[("c", colC6)]⟩

def schemaW1 : Schema := ⟨[("a", ⟨"a", .int, true, []⟩)]⟩

def dfW1 : DataFrame := []

def colW3 : Column := ⟨"a", .int, false, []⟩

def dfW3 : DataFrame := [("a", [(0, .vNull), (1, .vInt (-5))])]

def colW4 : Column := ⟨"x", .other "bytes", true, []⟩

def colW5 : Column := ⟨"b", .other "bytes", true, []⟩

def schemaW5 : Schema := ⟨[("b", colW5)]⟩

def dfW5 : DataFrame := [("b", [(0, .vInt 1)])]

def colW10 : Column := ⟨"n", .int, true, []⟩

end Pyschema

namespace Pdschema

def colC9 : Column := ⟨some "a", .str, true, []⟩

end Pdschema

namespace Pyschema

/-! Helper lemmas relating the accumulator-style column loop of validate to
the per-column check, and the validator scan to its per-row decomposition. -/

theorem validateGo_cons (df : DataFrame) (p : String × Column)
    (rest : List (String × Column)) (errs : List String) :
    validateGo df (p :: rest) errs =
      match colCheck df p with
      | .error e => .error e
      | .ok f => validateGo df rest (errs ++ f) := by
  obtain ⟨name, col⟩ := p
  simp only [validateGo, colCheck]
  cases hm : check_missing_column name df with
  | some m => simp
  | none =>
    cases ht : check_type col (dfGet df name) with
    | error e => simp
    | ok t => simp [List.append_assoc]

theorem validateGo_acc (df : DataFrame) (cols : List (String × Column)) :
    ∀ errs : List String,
      validateGo df cols errs =
        match validateAux df cols with
        | .error e => .error e
        | .ok es => .ok (errs ++ es) := by
  induction cols with
  | nil => intro errs; simp [validateGo, validateAux]
  | cons p rest ih =>
    intro errs
    rw [validateAux, validateGo_cons, validateGo_cons]
    cases hc : colCheck df p with
    | error e => simp
    | ok f =>
      dsimp only
      rw [ih (errs ++ f), ih ([] ++ f)]
      cases hr : validateAux df rest with
      | error e => simp
      | ok es => simp [List.append_assoc]

theorem validateAux_cons (df : DataFrame) (p : String × Column)
    (rest : List (String × Column)) :
    validateAux df (p :: rest) =
      match colCheck df p with
      | .error e => .error e
      | .ok f =>
        match validateAux df rest with
        | .error e => .error e
        | .ok es => .ok (f ++ es) := by
  rw [validateAux, validateGo_cons]
  cases hc : colCheck df p with
  | error e => rfl
  | ok f =>
    dsimp only
    rw [validateGo_acc]
    cases hr : validateAux df rest with
    | error e => rfl
    | ok es => simp

theorem validateAux_ok_flatMap (df : DataFrame) (cols : List (String × Column)) :
    ∀ es : List String, validateAux df cols = .ok es →
      es = cols.flatMap (colFindings df) := by
  induction cols with
  | nil =>
    intro es h
    simp [validateAux, validateGo] at h
    simp [h.symm]
  | cons p rest ih =>
    intro es h
    rw [validateAux_cons] at h
    cases hc : colCheck df p with
    | error e => rw [hc] at h; exact absurd h (by simp)
    | ok f =>
      rw [hc] at h
      cases hr : validateAux df rest with
      | error e => rw [hr] at h; exact absurd h (by simp)
      | ok es2 =>
        rw [hr] at h
        simp only [Except.ok.injEq] at h
        rw [List.flatMap_cons, ← ih es2 hr, ← h, colFindings, hc]
        rfl

theorem validateAux_append (df : DataFrame) (l1 l2 : List (String × Column)) :
    validateAux df (l1 ++ l2) =
      match validateAux df l1 with
      | .error e => .error e
      | .ok e1 =>
        match validateAux df l2 with
        | .error e => .error e
        | .ok e2 => .ok (e1 ++ e2) := by
  induction l1 with
  | nil =>
    simp only [List.nil_append, validateAux, validateGo]
    cases h2 : validateGo df l2 [] with
    | error e => rfl
    | ok e2 => simp
  | cons p rest ih =>
    rw [List.cons_append, validateAux_cons, validateAux_cons, ih]
    cases hc : colCheck df p with
    | error e => rfl
    | ok f =>
      cases hr : validateAux df rest with
      | error e => rfl
      | ok e1 =>
        cases h2 : validateAux df l2 with
        | error e => rfl
        | ok e2 => simp [List.append_assoc]

theorem check_validators_flatMap (col : Column) (series : Series) :
    check_validators col series =
      (nonNulls series).flatMap (fun p => rowLoop col.name p.1 p.2 col.validators) := by
  induction series with
  | nil => rfl
  | cons p rest ih =>
    simp only [check_validators, nonNulls] at ih ⊢
    rw [List.flatMap_cons, List.filter_cons]
    cases hn : p.2.isNull with
    | true => simp [hn, ih]
    | false => simp [hn, ih]

end Pyschema

/-- Claim C1: for every schema and table, validate returns true when zero
findings are recorded, and otherwise raises exactly one composite error whose
message is every finding produced across every declared column joined by
newlines; the findings are the concatenation of every column's findings, so
it neither raises on the first error nor raises per violation.  Stated in
the non-fatal regime (the column loop completes, which is the regime the
claim describes; the fatal unmapped-dtype path is claim C5). -/
theorem pyschema_validate_aggregates_all_findings (s : Pyschema.Schema)
    (df : Pyschema.DataFrame) (es : List String)
    (h : Pyschema.validateAux df s.columns = .ok es) :
    es = s.columns.flatMap (Pyschema.colFindings df) ∧
    (s.validate df = .ok true ↔ es = []) ∧
    (es ≠ [] → s.validate df =
      .error (.composite ("Schema validation failed:\n" ++ String.intercalate "\n" es))) := by
  refine ⟨Pyschema.validateAux_ok_flatMap df s.columns es h, ?_, ?_⟩
  · cases es with
    | nil => simp [Pyschema.Schema.validate, h]
    | cons a t => simp [Pyschema.Schema.validate, h]
  · intro hne
    cases es with
    | nil => exact absurd rfl hne
    | cons a t => simp [Pyschema.Schema.validate, h]

/-- Witness for C1 at a concrete schema and table: one declared column "a",
an empty table, a single finding, the composite error text. -/
theorem pyschema_validate_aggregates_all_findings_witness :
    Pyschema.Schema.validate Pyschema.schemaW1 Pyschema.dfW1 =
      .error (.composite "Schema validation failed:\nMissing column: a") :=
  (pyschema_validate_aggregates_all_findings Pyschema.schemaW1 Pyschema.dfW1
    ["Missing column: a"] rfl).2.2 (by simp)

/-- Claim C2 counterexample: a column with a raising validator followed by a
false-returning validator records TWO findings for a single row, and the
second validator does run after the first raised — the code breaks out of
the per-row validator loop only on a False return, not on a raise. -/
theorem pyschema_raise_then_false_two_findings :
    Pyschema.check_validators Pyschema.colC2 [(0, Val.vInt 1)] =
      [Pyschema.errMsg "c" 0 "boom", Pyschema.failMsg "c" 0 (Val.vInt 1)] ∧
    (Pyschema.check_validators Pyschema.colC2 [(0, Val.vInt 1)]).length ≠ 1 := by
  refine ⟨rfl, ?_⟩
  decide

/-- Claim C2 as amended: per non-null row the validators run in declared
order; the first validator that returns false records one finding and stops
the loop for that row, while a validator that raises records one finding and
the remaining validators still run for that row; rows are processed
independently (never short-circuit across rows). -/
theorem pyschema_validator_short_circuit_on_false_only
    (colName : String) (i : Nat) (v : Val) :
    (∀ (pre : List Pyschema.Validator) (f : Pyschema.Validator)
        (post : List Pyschema.Validator),
        (∀ g ∈ pre, g v = .ok true) → f v = .ok false →
        Pyschema.rowLoop colName i v (pre ++ f :: post) = [Pyschema.failMsg colName i v]) ∧
    (∀ (f : Pyschema.Validator) (rest : List Pyschema.Validator) (e : String),
        f v = .error e →
        Pyschema.rowLoop colName i v (f :: rest) =
          Pyschema.errMsg colName i e :: Pyschema.rowLoop colName i v rest) ∧
    (∀ (col : Pyschema.Column) (s1 s2 : Pyschema.Series),
        Pyschema.check_validators col (s1 ++ s2) =
          Pyschema.check_validators col s1 ++ Pyschema.check_validators col s2) := by
  refine ⟨?_, ?_, ?_⟩
  · intro pre
    induction pre with
    | nil =>
      intro f post _ hf
      simp [Pyschema.rowLoop, hf]
    | cons g rest ih =>
      intro f post hpre hf
      have hg : g v = .ok true := hpre g (by simp)
      rw [List.cons_append]
      simp only [Pyschema.rowLoop, hg]
      exact ih f post (fun g' hg' => hpre g' (by simp [hg'])) hf
  · intro f rest e hf
    simp [Pyschema.rowLoop, hf]
  · intro col s1 s2
    simp [Pyschema.check_validators, List.flatMap_append]

/-- Witness for the amended C2 at concrete validators and rows. -/
theorem pyschema_validator_short_circuit_on_false_only_witness :
    Pyschema.rowLoop "c" 0 (Val.vInt 1)
        ([Pyschema.vTrue] ++ Pyschema.vFalse :: [Pyschema.vRaise]) =
      [Pyschema.failMsg "c" 0 (Val.vInt 1)] ∧
    Pyschema.rowLoop "c" 0 (Val.vInt 1) (Pyschema.vRaise :: [Pyschema.vFalse]) =
      Pyschema.errMsg "c" 0 "boom" :: Pyschema.rowLoop "c" 0 (Val.vInt 1) [Pyschema.vFalse] ∧
    Pyschema.check_validators Pyschema.colC2 ([(0, Val.vInt 1)] ++ [(1, Val.vInt 2)]) =
      Pyschema.check_validators Pyschema.colC2 [(0, Val.vInt 1)] ++
        Pyschema.check_validators Pyschema.colC2 [(1, Val.vInt 2)] := by
  have h := pyschema_validator_short_circuit_on_false_only "c" 0 (Val.vInt 1)
  exact ⟨h.1 [Pyschema.vTrue] Pyschema.vFalse [Pyschema.vRaise]
      (by intro g hg; rw [List.mem_singleton] at hg; subst hg; rfl) rfl,
    h.2.1 Pyschema.vRaise [Pyschema.vFalse] "boom" rfl,
    h.2.2 Pyschema.colC2 [(0, Val.vInt 1)] [(1, Val.vInt 2)]⟩

/-- Claim C3: a non-nullable column with at least one null contributes the
null finding, and the other checks still run on the same column: its
findings are the null finding followed by the type finding and the validator
findings; moreover the type and validator checks depend only on the non-null
rows, whatever the nullable flag — any series with the same non-null rows
produces the same type and validator outcomes. -/
theorem pyschema_nullability_and_null_exclusion
    (df : Pyschema.DataFrame) (name : String) (col : Pyschema.Column)
    (series : Pyschema.Series) (t : Option String)
    (hdf : Pyschema.dfLookup df name = some series)
    (hnn : col.nullable = false)
    (hnull : series.any (fun p => p.2.isNull) = true)
    (ht : Pyschema.check_type col series = .ok t) :
    Pyschema.colCheck df (name, col) =
      .ok (("Null values found in non-nullable column: " ++ col.name) ::
        (t.toList ++ Pyschema.check_validators col series)) ∧
    (∀ s2 : Pyschema.Series, Pyschema.nonNulls s2 = Pyschema.nonNulls series →
      Pyschema.check_type col s2 = Pyschema.check_type col series ∧
      Pyschema.check_validators col s2 = Pyschema.check_validators col series) := by
  constructor
  · have hmem : name ∈ Pyschema.dfColumns df := by
      rw [Pyschema.dfLookup] at hdf
      cases hfind : df.find? (fun p => p.1 == name) with
      | none => rw [hfind] at hdf; exact absurd hdf (by simp)
      | some q =>
        have hq := List.find?_some hfind
        have hq2 : q.1 = name := by simpa using hq
        have hqmem := List.mem_of_find?_eq_some hfind
        exact List.mem_map.mpr ⟨q, hqmem, hq2⟩
    have hget : Pyschema.dfGet df name = series := by
      simp [Pyschema.dfGet, hdf]
    simp [Pyschema.colCheck, Pyschema.check_missing_column, hmem, hget, ht,
      Pyschema.check_nullability, hnn, hnull]
  · intro s2 h2
    constructor
    · simp only [Pyschema.check_type, Pyschema.dropna, h2]
    · rw [Pyschema.check_validators_flatMap, Pyschema.check_validators_flatMap, h2]

/-- Witness for C3 at a concrete non-nullable int column with a null row. -/
theorem pyschema_nullability_and_null_exclusion_witness :
    Pyschema.colCheck Pyschema.dfW3 ("a", Pyschema.colW3) =
      .ok ["Null values found in non-nullable column: a"] :=
  (pyschema_nullability_and_null_exclusion Pyschema.dfW3 "a" Pyschema.colW3
    [(0, .vNull), (1, .vInt (-5))] none rfl rfl rfl rfl).1

/-- Claim C4: a declared column absent from the table contributes exactly the
missing-column finding; the nullability, type, and validator checks do not
run for it — in particular even an unmapped dtype raises nothing, since the
type check is skipped. -/
theorem pyschema_missing_column_skips_checks
    (df : Pyschema.DataFrame) (name : String) (col : Pyschema.Column)
    (h : name ∉ Pyschema.dfColumns df) :
    Pyschema.colCheck df (name, col) = .ok ["Missing column: " ++ name] := by
  simp [Pyschema.colCheck, Pyschema.check_missing_column, h]

/-- Witness for C4: column "x" with an unmapped dtype against an empty
table. -/
theorem pyschema_missing_column_skips_checks_witness :
    Pyschema.colCheck [] ("x", Pyschema.colW4) = .ok ["Missing column: x"] :=
  pyschema_missing_column_skips_checks [] "x" Pyschema.colW4 (by simp [Pyschema.dfColumns])

/-- Claim C5: a column whose declared dtype has no storage-type mapping makes
validate raise the TypeError from to_pyarrow_type at type-check time for
that column, as a fatal error: findings accumulated so far are discarded and
no composite report is produced. -/
theorem pyschema_unsupported_dtype_fatal
    (df : Pyschema.DataFrame) (pre post : List (String × Pyschema.Column))
    (name : String) (col : Pyschema.Column) (es0 : List String) (em : String)
    (hpre : Pyschema.validateAux df pre = .ok es0)
    (hmem : name ∈ Pyschema.dfColumns df)
    (hdt : col.to_pyarrow_type = .error em) :
    Pyschema.Schema.validate ⟨pre ++ (name, col) :: post⟩ df = .error (.fatal em) := by
  have hcol : Pyschema.colCheck df (name, col) = .error em := by
    simp [Pyschema.colCheck, Pyschema.check_missing_column, hmem, Pyschema.check_type, hdt]
  have hall : Pyschema.validateAux df (pre ++ (name, col) :: post) = .error em := by
    rw [Pyschema.validateAux_append, hpre]
    dsimp only
    rw [Pyschema.validateAux_cons, hcol]
  simp [Pyschema.Schema.validate, hall]

/-- Witness for C5: a one-column schema whose dtype is the unmapped bytes
type, against a table holding that column. -/
theorem pyschema_unsupported_dtype_fatal_witness :
    Pyschema.Schema.validate Pyschema.schemaW5 Pyschema.dfW5 =
      .error (.fatal "Unsupported dtype: <class 'bytes'>") :=
  pyschema_unsupported_dtype_fatal Pyschema.dfW5 [] [] "b" Pyschema.colW5 [] _ rfl
    (by simp [Pyschema.dfColumns, Pyschema.dfW5]) rfl

/-- Claim C6: the finding text for a raising validator always differs from
the finding text for a validator returning False (they diverge at character
seven), and both kinds appear together in one composite report on a concrete
table whose single validator raises on the first row and returns False on
the second. -/
theorem pyschema_error_and_failed_findings_distinct :
    (∀ (colName : String) (i : Nat) (v : Val) (e : String),
        Pyschema.errMsg colName i e ≠ Pyschema.failMsg colName i v) ∧
    Pyschema.Schema.validate Pyschema.schemaC6 Pyschema.dfC6 =
      .error (.composite ("Schema validation failed:\n" ++
        (Pyschema.errMsg "c" 0 "boom" ++ "\n" ++ Pyschema.failMsg "c" 1 (Val.vInt 2)))) := by
  refine ⟨?_, ?_⟩
  · intro colName i v e h
    have hd := congrArg String.data h
    simp only [Pyschema.errMsg, Pyschema.failMsg, String.data_append,
      List.append_assoc] at hd
    have h8 := congrArg (List.take 8) hd
    rw [List.take_append_of_le_length (by decide),
      List.take_append_of_le_length (by decide)] at h8
    exact absurd h8 (by decide)
  · rfl

/-- Claim C7 (code bug): src/pyschema/types.py guards iloc[0] with the
emptiness of the original series, so a non-empty all-null object series
raises IndexError instead of returning the untyped marker; the genuinely
empty series does return the untyped marker. -/
theorem pyschema_all_null_object_series_raises :
    Pyschema.get_pyarrow_type_from_series ⟨.obj, [.vNull, .vNull, .vNull]⟩ =
      .error "IndexError: single positional indexer is out-of-bounds" ∧
    Pyschema.get_pyarrow_type_from_series ⟨.obj, []⟩ = .ok .null :=
  ⟨rfl, rfl⟩

/-- Claim C8: validate reads the schema and the table and writes neither:
running it leaves the world unchanged, and running it again on the world the
first call left behind produces a byte-identical outcome. -/
theorem pyschema_validate_pure_and_idempotent (s : Pyschema.Schema)
    (df : Pyschema.DataFrame) :
    (Pyschema.validateM.run ⟨s, df⟩).2 = ⟨s, df⟩ ∧
    (Pyschema.validateM.run ((Pyschema.validateM.run ⟨s, df⟩).2)).1 =
      (Pyschema.validateM.run ⟨s, df⟩).1 :=
  ⟨rfl, rfl⟩

/-- Claim C9 counterexample: set_name assigns the new name to the same
column object — the original spec's name after the call is the new name, not
the old one, refuting "every renaming operation returns a new spec and never
mutates the original in place". -/
theorem pdschema_set_name_mutates_in_place :
    ((Pdschema.colC9.set_name "b").1).name ≠ Pdschema.colC9.name := by
  decide

/-- Claim C9 as amended: set_name mutates the spec in place, leaving it with
the new name; only with_name is copy-on-rename — it leaves the original spec
untouched and returns a fresh spec carrying the new name and the original's
other fields. -/
theorem pdschema_rename_copy_semantics (c : Pdschema.Column) (n : String) :
    (c.set_name n).1 = { c with name := some n } ∧
    (c.with_name n).1 = c ∧
    (c.with_name n).2 = { c with name := some n } :=
  ⟨rfl, rfl, rfl⟩

/-- Claim C10: when the declared dtype has a storage-type mapping and the
series has no non-null value, the type check records no finding: after
dropping nulls the typed-array construction runs on no values and succeeds
whatever the declared type. -/
theorem pyschema_all_null_passes_type_check
    (col : Pyschema.Column) (series : Pyschema.Series) (t : Pyschema.PAType)
    (hdt : col.to_pyarrow_type = .ok t)
    (hnull : ∀ p ∈ series, (p.2 : Val).isNull = true) :
    Pyschema.check_type col series = .ok none := by
  have h1 : Pyschema.nonNulls series = [] := by
    rw [Pyschema.nonNulls, List.filter_eq_nil_iff]
    intro p hp
    simp [hnull p hp]
  have hd : Pyschema.dropna series = [] := by
    simp [Pyschema.dropna, h1]
  simp [Pyschema.check_type, hdt, hd, Pyschema.paArray]

/-- Witness for C10: an int column whose only row is null. -/
theorem pyschema_all_null_passes_type_check_witness :
    Pyschema.check_type Pyschema.colW10 [(0, Val.vNull)] = .ok none :=
  pyschema_all_null_passes_type_check Pyschema.colW10 [(0, Val.vNull)] .int64 rfl
    (by intro p hp; rw [List.mem_singleton] at hp; subst hp; rfl)

